import Mathlib

/-!
Verification of the alert-relay and responder-tracking server in
`src/server.js` (Express + socket.io, all state in memory).

Shallow embedding conventions:
* A JavaScript number that may be `NaN` is modelled as `Option ℚ`
  (`none` = NaN).  `parseFloat` of an absent or unparseable field yields
  NaN, so a request's numeric field is modelled directly as the parsed
  value: `none` for "absent or unparseable", `some q` for a field that
  parsed to the number `q` (e.g. the string "0" is `some 0`).
  `parseInt` results are modelled likewise as `Option ℤ`.
* An optional string field is `Option String` (`none` = absent);
  JavaScript `||` treats `none` (undefined), the empty string, `0` and
  NaN as falsy, which the helpers below reproduce.
* A JS `Map` keyed by socket id is an association list
  `List (String × α)`; a `Map` holds at most one entry per key, so
  `delete` is modelled as filtering the key out.
* Timestamps (`Date.now()`, `new Date().toISOString()`) and generated
  alert ids are opaque strings supplied to each handler as parameters.
* `io.emit` / `socket.emit` calls are collected in an `Emission` list
  returned by each handler next to the new state.
-/

/-- A JavaScript number; `none` models NaN. -/
abbrev JSNum := Option ℚ

/-- JS `x || d` on a number: NaN and 0 are falsy. -/
def jsOr (x : JSNum) (d : ℚ) : ℚ :=
  match x with
  | none => d
  | some q => if q = 0 then d else q

/-- JS `x || d` on an optional-chaining number (`officer?.lat || d`):
`none` models an absent object, the inner `JSNum` a possibly-NaN field. -/
def chainOr (x : Option JSNum) (d : ℚ) : ℚ :=
  match x with
  | none => d
  | some v => jsOr v d

/-- JS `x || d` on a string field: undefined and the empty string are falsy. -/
def strOr (x : Option String) (d : String) : String :=
  match x with
  | none => d
  | some s => if s = "" then d else s

/-- JS `x || d` on an integer (`parseInt(...) || d`): NaN and 0 are falsy. -/
def intOr (x : Option ℤ) (d : ℤ) : ℤ :=
  match x with
  | none => d
  | some n => if n = 0 then d else n

/-- JS `x || null` on a string field (`a.snippet || null`). -/
def snippetOr (x : Option String) : Option String :=
  match x with
  | none => none
  | some s => if s = "" then none else some s

/-- JS `.toUpperCase()` (ASCII case mapping, applied character-wise). -/
def jsToUpper (s : String) : String := ⟨s.data.map Char.toUpper⟩

/-- `const MAX_ALERTS = 200` (src/server.js:54). -/
def MAX_ALERTS : Nat := 200

/-- `const API_KEY = "secure_key_123"` (src/server.js:48). -/
def API_KEY : String := "secure_key_123"

/-- An alert record as built by the two ingestion handlers.  Camera-only
and SOS-only fields are `Option`-valued and `none` on the other kind
(JS objects simply lack the field). -/
structure Alert where
  id : String
  type : String
  severity : String
  place : String
  alertType : String
  description : String
  lat : ℚ
  lng : ℚ
  time : String
  status : String
  receivedAt : String
  cameraId : Option String
  snippet : Option String
  personCount : Option ℤ
  threatLevel : Option String
  riskFactors : Option String
  motionIntensity : Option ℚ
  lighting : Option String
  brightnessLevel : Option ℤ
  behavior : Option String
  respondedBy : Option String
  respondedAt : Option String
  userName : Option String
  userPhone : Option String
deriving DecidableEq

/-- An entry of `connectedOfficers` (src/server.js:68-75).  `lat`/`lng`
are `JSNum` because `update_location` stores raw `parseFloat` results,
which may be NaN. -/
structure Officer where
  name : String
  lat : JSNum
  lng : JSNum
  unit : String
  status : String
  loginTime : String
deriving DecidableEq

/-- An entry of `activeTracking` (src/server.js:86-95). -/
structure Tracking where
  alertId : String
  alertLat : JSNum
  alertLng : JSNum
  alertType : String
  officerLat : JSNum
  officerLng : JSNum
  startTime : String
  status : String
deriving DecidableEq

/-- The server's mutable state (src/server.js:51-57). -/
structure ServerState where
  cameraAlerts : List Alert
  sosAlerts : List Alert
  activeTracking : List (String × Tracking)
  connectedOfficers : List (String × Officer)
deriving DecidableEq

def initialState : ServerState :=
  { cameraAlerts := [], sosAlerts := [], activeTracking := [], connectedOfficers := [] }

/-- `Map.get` on an association list. -/
def lookup {α : Type} (m : List (String × α)) (k : String) : Option α :=
  match m with
  | [] => none
  | (k2, v) :: rest => if k = k2 then some v else lookup rest k

/-- `Map.set`: replace the existing entry for the key, else append. -/
def mapSet {α : Type} (m : List (String × α)) (k : String) (v : α) :
    List (String × α) :=
  match m with
  | [] => [(k, v)]
  | (k2, v2) :: rest =>
    if k = k2 then (k, v) :: rest else (k2, v2) :: mapSet rest k v

/-- `Map.delete`: a JS `Map` holds at most one entry per key, so deletion
is filtering the key out. -/
def mapDel {α : Type} (m : List (String × α)) (k : String) :
    List (String × α) :=
  m.filter (fun p => !(p.1 = k))

/-- Payload of an emitted socket event. -/
inductive EmitPayload where
  | noneP
  | alertP (a : Alert)
  | resolvedP (a : Alert) (alertType : Option String)
  | trackingP (officerId : String) (t : Tracking)
  | officersP (os : List Officer)
  | stoppedP (officerId : String)
  | ackP (success : Bool) (message : String) (alertId : String)
deriving DecidableEq

/-- Target of an emit: `io.emit` broadcasts to all connections,
`socket.emit` goes to one connection. -/
inductive EmitTarget where
  | all
  | one (sid : String)
deriving DecidableEq

/-- One `io.emit` / `socket.emit` call. -/
structure Emission where
  target : EmitTarget
  event : String
  payload : EmitPayload
deriving DecidableEq

/-- HTTP responses the modelled endpoints produce. -/
inductive HttpOutcome where
  | ok (alert : Alert)
  | forbidden
  | notFound
deriving DecidableEq

/-- Body of `POST /send-alert` after numeric parsing (see the module
comment: `lat` is the `parseFloat(a.lat)` result, etc.). -/
structure CameraReq where
  severity : Option String
  place : Option String
  type : Option String
  cameraId : Option String
  description : Option String
  lat : JSNum
  lng : JSNum
  time : Option String
  snippet : Option String
  personCount : Option ℤ
  threatLevel : Option String
  riskFactors : Option String
  motionIntensity : JSNum
  lighting : Option String
  brightnessLevel : Option ℤ
  behavior : Option String
deriving DecidableEq

/-- Body of `POST /send-sos-alert` after numeric parsing. -/
structure SosReq where
  place : Option String
  userName : Option String
  userPhone : Option String
  description : Option String
  lat : JSNum
  lng : JSNum
  time : Option String
deriving DecidableEq

/-- The camera alert object built at src/server.js:153-176; `now` models
the current timestamp, `newId` the generated id. -/
def buildCameraAlert (a : CameraReq) (now newId : String) : Alert :=
  { id := newId
    type := "camera"
    severity := jsToUpper (strOr a.severity "MEDIUM")
    place := strOr a.place "Unknown Location"
    alertType := strOr a.type "Safety Alert"
    cameraId := some (strOr a.cameraId "CAM-000")
    description := strOr a.description "No details"
    lat := jsOr a.lat 11.1085
    lng := jsOr a.lng 77.3411
    time := strOr a.time now
    snippet := snippetOr a.snippet
    personCount := some (intOr a.personCount 0)
    threatLevel := some (strOr a.threatLevel "unknown")
    riskFactors := some (strOr a.riskFactors "None")
    motionIntensity := some (jsOr a.motionIntensity 0)
    lighting := some (strOr a.lighting "Unknown")
    brightnessLevel := some (intOr a.brightnessLevel 0)
    behavior := some (strOr a.behavior (strOr a.threatLevel "suspicious"))
    status := "active"
    receivedAt := now
    respondedBy := none
    respondedAt := none
    userName := none
    userPhone := none }

/-- The SOS alert object built at src/server.js:206-220. -/
def buildSosAlert (s : SosReq) (now newId : String) : Alert :=
  { id := newId
    type := "sos"
    severity := "CRITICAL"
    place := strOr s.place "Unknown Location"
    alertType := "SOS Emergency"
    userName := some (strOr s.userName "Anonymous")
    userPhone := some (strOr s.userPhone "N/A")
    description := strOr s.description "SOS button pressed"
    lat := jsOr s.lat 11.1085
    lng := jsOr s.lng 77.3411
    time := strOr s.time now
    status := "active"
    receivedAt := now
    cameraId := none
    snippet := none
    personCount := none
    threatLevel := none
    riskFactors := none
    motionIntensity := none
    lighting := none
    brightnessLevel := none
    behavior := none
    respondedBy := none
    respondedAt := none }

/-- `list.unshift(alert); if (list.length > MAX_ALERTS) list.pop()`
(src/server.js:178-179 and 222-223). -/
def appendCapped (l : List Alert) (a : Alert) : List Alert :=
  let l2 := a :: l
  if l2.length > MAX_ALERTS then l2.dropLast else l2

/-- `POST /send-alert` (src/server.js:142-194). -/
def sendAlert (st : ServerState) (apiKey : Option String) (a : CameraReq)
    (now newId : String) : HttpOutcome × ServerState × List Emission :=
  if apiKey ≠ some API_KEY then
    (.forbidden, st, [])
  else
    let alert := buildCameraAlert a now newId
    (.ok alert,
     { st with cameraAlerts := appendCapped st.cameraAlerts alert },
     [⟨.all, "new_camera_alert", .alertP alert⟩])

/-- `POST /send-sos-alert` (src/server.js:197-234). -/
def sendSosAlert (st : ServerState) (apiKey : Option String) (s : SosReq)
    (now newId : String) : HttpOutcome × ServerState × List Emission :=
  if apiKey ≠ some API_KEY then
    (.forbidden, st, [])
  else
    let alert := buildSosAlert s now newId
    (.ok alert,
     { st with sosAlerts := appendCapped st.sosAlerts alert },
     [⟨.all, "new_sos_alert", .alertP alert⟩])

/-- `alerts.findIndex(a => a.id === alertId)` followed by the in-place
mutation `alert.status = 'resolved'; alert.respondedAt = ...`
(src/server.js:241-249): returns the mutated alert and the mutated list,
or `none` when no element matches. -/
def resolveInList : List Alert → String → String → Option (Alert × List Alert)
  | [], _, _ => none
  | al :: rest, alertId, now =>
    if al.id = alertId then
      let al2 := { al with status := "resolved", respondedAt := some now }
      some (al2, al2 :: rest)
    else
      match resolveInList rest alertId now with
      | none => none
      | some (r, rest2) => some (r, al :: rest2)

/-- `POST /resolve-alert` (src/server.js:237-255). -/
def resolveAlert (st : ServerState) (alertId : String)
    (alertType : Option String) (now : String) :
    HttpOutcome × ServerState × List Emission :=
  if alertType = some "sos" then
    match resolveInList st.sosAlerts alertId now with
    | none => (.notFound, st, [])
    | some (a2, l2) =>
      (.ok a2, { st with sosAlerts := l2 },
       [⟨.all, "alert_resolved", .resolvedP a2 alertType⟩])
  else
    match resolveInList st.cameraAlerts alertId now with
    | none => (.notFound, st, [])
    | some (a2, l2) =>
      (.ok a2, { st with cameraAlerts := l2 },
       [⟨.all, "alert_resolved", .resolvedP a2 alertType⟩])

/-- `POST /clear-alerts` (src/server.js:274-294); the first component is
the `{cleared, type}` part of the response body. -/
def clearAlerts (st : ServerState) (alertType : Option String) :
    (Nat × String) × ServerState × List Emission :=
  if alertType = some "camera" then
    ((st.cameraAlerts.length, "camera"), { st with cameraAlerts := [] },
     [⟨.all, "camera_alerts_cleared", .noneP⟩])
  else if alertType = some "sos" then
    ((st.sosAlerts.length, "sos"), { st with sosAlerts := [] },
     [⟨.all, "sos_alerts_cleared", .noneP⟩])
  else
    ((st.cameraAlerts.length + st.sosAlerts.length, "all"),
     { st with cameraAlerts := [], sosAlerts := [] },
     [⟨.all, "all_alerts_cleared", .noneP⟩])

/-- `socket.on('officer_login')` (src/server.js:67-78).  The payload's
`lat`/`lng` are modelled as `JSNum` (`none` = absent). -/
def officerLogin (st : ServerState) (sid : String) (name : Option String)
    (lat lng : JSNum) (unitF : Option String) (now : String) :
    ServerState × List Emission :=
  let off : Officer :=
    { name := strOr name "Officer"
      lat := some (jsOr lat 11.1085)
      lng := some (jsOr lng 77.3411)
      unit := strOr unitF "Unit-01"
      status := "available"
      loginTime := now }
  let m2 := mapSet st.connectedOfficers sid off
  ({ st with connectedOfficers := m2 },
   [⟨.all, "officers_updated", .officersP (m2.map (fun p => p.2))⟩])

/-- `socket.on('start_tracking')` (src/server.js:80-107).  `alertLat` /
`alertLng` are the `parseFloat` results of the payload fields. -/
def startTracking (st : ServerState) (sid alertId : String)
    (alertLat alertLng : JSNum) (alertType : Option String) (now : String) :
    ServerState × List Emission :=
  let officer := lookup st.connectedOfficers sid
  let t : Tracking :=
    { alertId := alertId
      alertLat := alertLat
      alertLng := alertLng
      alertType := strOr alertType "camera"
      officerLat := some (chainOr (officer.map (fun o => o.lat)) 11.1085)
      officerLng := some (chainOr (officer.map (fun o => o.lng)) 77.3411)
      startTime := now
      status := "tracking" }
  ({ st with activeTracking := mapSet st.activeTracking sid t },
   [⟨.one sid, "tracking_started", .ackP true "Tracking activated" alertId⟩,
    ⟨.all, "tracking_update", .trackingP sid t⟩])

/-- `socket.on('update_location')` (src/server.js:109-126).  `lat`/`lng`
are the raw `parseFloat(location.lat)` / `parseFloat(location.lng)`
results, stored without any defaulting (possibly NaN = `none`). -/
def updateLocation (st : ServerState) (sid : String) (lat lng : JSNum) :
    ServerState × List Emission :=
  match lookup st.connectedOfficers sid with
  | none => (st, [])
  | some off =>
    let off2 := { off with lat := lat, lng := lng }
    let st2 := { st with connectedOfficers := mapSet st.connectedOfficers sid off2 }
    match lookup st.activeTracking sid with
    | none => (st2, [])
    | some t =>
      let t2 := { t with officerLat := lat, officerLng := lng }
      ({ st2 with activeTracking := mapSet st2.activeTracking sid t2 },
       [⟨.all, "tracking_update", .trackingP sid t2⟩])

/-- `socket.on('stop_tracking')` (src/server.js:128-132). -/
def stopTracking (st : ServerState) (sid : String) :
    ServerState × List Emission :=
  ({ st with activeTracking := mapDel st.activeTracking sid },
   [⟨.all, "tracking_stopped", .stoppedP sid⟩])

/-- `socket.on('disconnect')` (src/server.js:134-138): both map entries
are deleted and nothing is emitted. -/
def onDisconnect (st : ServerState) (sid : String) :
    ServerState × List Emission :=
  ({ st with connectedOfficers := mapDel st.connectedOfficers sid,
             activeTracking := mapDel st.activeTracking sid },
   [])

/-- `GET /tracking-data` (src/server.js:311-323): the listed tracking
sessions and officers, each tagged with its connection id. -/
def trackingData (st : ServerState) :
    List (String × Tracking) × List (String × Officer) :=
  (st.activeTracking, st.connectedOfficers)

/-- Repeated camera ingestions with the valid key; each request comes
with its timestamp and generated id. -/
def runCameraIngestions (st : ServerState)
    (reqs : List (CameraReq × String × String)) : ServerState :=
  reqs.foldl (fun s r => (sendAlert s (some API_KEY) r.1 r.2.1 r.2.2).2.1) st

/-- Repeated SOS ingestions with the valid key. -/
def runSosIngestions (st : ServerState)
    (reqs : List (SosReq × String × String)) : ServerState :=
  reqs.foldl (fun s r => (sendSosAlert s (some API_KEY) r.1 r.2.1 r.2.2).2.1) st

section MapLemmas

variable {α : Type}

theorem lookup_mapSet_self (m : List (String × α)) (k : String) (v : α) :
    lookup (mapSet m k v) k = some v := by
  induction m with
  | nil => simp [mapSet, lookup]
  | cons p rest ih =>
    by_cases h : k = p.1
    · simp [mapSet, lookup, h]
    · simp [mapSet, lookup, h, ih]

theorem lookup_mapSet_ne (m : List (String × α)) (k k2 : String) (v : α)
    (h : k2 ≠ k) : lookup (mapSet m k v) k2 = lookup m k2 := by
  induction m with
  | nil => simp [mapSet, lookup, h]
  | cons p rest ih =>
    by_cases hk : k = p.1
    · subst hk
      simp [mapSet, lookup, h]
    · by_cases hk2 : k2 = p.1
      · simp [mapSet, lookup, hk, hk2]
      · simp [mapSet, lookup, hk, hk2, ih]

theorem lookup_mapDel_self (m : List (String × α)) (k : String) :
    lookup (mapDel m k) k = none := by
  induction m with
  | nil => rfl
  | cons p rest ih =>
    by_cases h : p.1 = k
    · simpa [mapDel, List.filter, h] using ih
    · have h2 : ¬ k = p.1 := fun he => h he.symm
      simpa [mapDel, List.filter, h, lookup, h2] using ih

theorem mem_mapDel (m : List (String × α)) (k : String) (p : String × α)
    (h : p ∈ mapDel m k) : p.1 ≠ k := by
  have h2 := List.of_mem_filter h
  simpa using h2

end MapLemmas

theorem appendCapped_take (hist : List Alert) (a : Alert) :
    appendCapped (hist.take MAX_ALERTS) a = (a :: hist).take MAX_ALERTS := by
  by_cases h : MAX_ALERTS ≤ hist.length
  · have hlen : (a :: hist.take MAX_ALERTS).length = MAX_ALERTS + 1 := by
      simp [List.length_take, Nat.min_eq_left h]
    have hcond : (a :: hist.take MAX_ALERTS).length > MAX_ALERTS := by omega
    have hdrop : (a :: hist.take MAX_ALERTS).dropLast =
        (a :: hist.take MAX_ALERTS).take MAX_ALERTS := by
      rw [List.dropLast_eq_take, hlen, Nat.add_sub_cancel]
    unfold appendCapped
    rw [if_pos hcond, hdrop]
    rw [show MAX_ALERTS = 199 + 1 from rfl]
    rw [List.take_succ_cons, List.take_succ_cons, List.take_take]
    norm_num
  · push_neg at h
    have htake : hist.take MAX_ALERTS = hist :=
      List.take_of_length_le (Nat.le_of_lt h)
    have hc : ¬ (a :: hist).length > MAX_ALERTS := by
      simp only [List.length_cons]
      omega
    have htake2 : (a :: hist).take MAX_ALERTS = a :: hist :=
      List.take_of_length_le (by simp only [List.length_cons]; omega)
    unfold appendCapped
    rw [htake, if_neg hc, htake2]

theorem foldl_appendCapped (as : List Alert) (hist : List Alert) :
    as.foldl appendCapped (hist.take MAX_ALERTS) =
      (as.reverse ++ hist).take MAX_ALERTS := by
  induction as generalizing hist with
  | nil => simp
  | cons a rest ih =>
    rw [List.foldl_cons, appendCapped_take, ih (a :: hist)]
    simp

theorem runCameraIngestions_alerts (st : ServerState)
    (reqs : List (CameraReq × String × String)) :
    (runCameraIngestions st reqs).cameraAlerts =
      (reqs.map (fun r => buildCameraAlert r.1 r.2.1 r.2.2)).foldl
        appendCapped st.cameraAlerts := by
  induction reqs generalizing st with
  | nil => rfl
  | cons r rest ih =>
    rw [runCameraIngestions, List.foldl_cons, List.map_cons, List.foldl_cons]
    have hstep : (sendAlert st (some API_KEY) r.1 r.2.1 r.2.2).2.1 =
        { st with cameraAlerts :=
            appendCapped st.cameraAlerts (buildCameraAlert r.1 r.2.1 r.2.2) } := by
      simp [sendAlert]
    rw [hstep]
    exact ih _

theorem runSosIngestions_alerts (st : ServerState)
    (reqs : List (SosReq × String × String)) :
    (runSosIngestions st reqs).sosAlerts =
      (reqs.map (fun r => buildSosAlert r.1 r.2.1 r.2.2)).foldl
        appendCapped st.sosAlerts := by
  induction reqs generalizing st with
  | nil => rfl
  | cons r rest ih =>
    rw [runSosIngestions, List.foldl_cons, List.map_cons, List.foldl_cons]
    have hstep : (sendSosAlert st (some API_KEY) r.1 r.2.1 r.2.2).2.1 =
        { st with sosAlerts :=
            appendCapped st.sosAlerts (buildSosAlert r.1 r.2.1 r.2.2) } := by
      simp [sendSosAlert]
    rw [hstep]
    exact ih _

/-- C1: for every sequence of camera (resp. SOS) ingestions starting from
the empty store, the collection's size never exceeds `MAX_ALERTS` and the
retained elements are exactly the most recent `MAX_ALERTS` stored alerts,
newest first (each ingestion `unshift`s to the head; past the cap the
tail is `pop`ped). -/
theorem alerts_capped_newest_first
    (reqs : List (CameraReq × String × String))
    (sreqs : List (SosReq × String × String)) :
    ((runCameraIngestions initialState reqs).cameraAlerts.length ≤ MAX_ALERTS ∧
     (runCameraIngestions initialState reqs).cameraAlerts =
       ((reqs.map (fun r => buildCameraAlert r.1 r.2.1 r.2.2)).reverse).take
         MAX_ALERTS) ∧
    ((runSosIngestions initialState sreqs).sosAlerts.length ≤ MAX_ALERTS ∧
     (runSosIngestions initialState sreqs).sosAlerts =
       ((sreqs.map (fun r => buildSosAlert r.1 r.2.1 r.2.2)).reverse).take
         MAX_ALERTS) := by
  have hc : (runCameraIngestions initialState reqs).cameraAlerts =
      ((reqs.map (fun r => buildCameraAlert r.1 r.2.1 r.2.2)).reverse).take
        MAX_ALERTS := by
    rw [runCameraIngestions_alerts]
    have h0 : initialState.cameraAlerts = ([] : List Alert).take MAX_ALERTS := rfl
    rw [h0, foldl_appendCapped]
    simp
  have hs : (runSosIngestions initialState sreqs).sosAlerts =
      ((sreqs.map (fun r => buildSosAlert r.1 r.2.1 r.2.2)).reverse).take
        MAX_ALERTS := by
    rw [runSosIngestions_alerts]
    have h0 : initialState.sosAlerts = ([] : List Alert).take MAX_ALERTS := rfl
    rw [h0, foldl_appendCapped]
    simp
  refine ⟨⟨?_, hc⟩, ⟨?_, hs⟩⟩
  · rw [hc]
    simp
  · rw [hs]
    simp


/-- A camera request with every field absent. -/
def exCameraReq : CameraReq :=
  { severity := none, place := none, type := none, cameraId := none
    description := none, lat := none, lng := none, time := none
    snippet := none, personCount := none, threatLevel := none
    riskFactors := none, motionIntensity := none, lighting := none
    brightnessLevel := none, behavior := none }

/-- A SOS request with every field absent. -/
def exSosReq : SosReq :=
  { place := none, userName := none, userPhone := none, description := none
    lat := none, lng := none, time := none }

/-- C2: an ingestion request (camera or SOS) whose `x-api-key` header
differs from the shared secret is answered with 403, the state is
returned unchanged (both collections untouched) and nothing is
emitted. -/
theorem unauthorized_rejected (st : ServerState) (k : Option String)
    (h : k ≠ some API_KEY) (a : CameraReq) (s : SosReq) (now newId : String) :
    sendAlert st k a now newId = (.forbidden, st, []) ∧
    sendSosAlert st k s now newId = (.forbidden, st, []) := by
  constructor <;> simp [sendAlert, sendSosAlert, h]

/-- Witness for C2 at a concrete wrong key and the empty state. -/
theorem unauthorized_rejected_witness :
    sendAlert initialState (some "wrong_key") exCameraReq "t0" "id0" =
      (.forbidden, initialState, []) ∧
    sendSosAlert initialState (some "wrong_key") exSosReq "t0" "id0" =
      (.forbidden, initialState, []) :=
  unauthorized_rejected initialState (some "wrong_key") (by decide)
    exCameraReq exSosReq "t0" "id0"

/-- C6: `clear("camera")` empties only the camera collection and leaves
the SOS collection unchanged, and symmetrically for `"sos"`; clearing
`"all"` empties both; each call reports the number of removed alerts. -/
theorem clear_alerts_frame (st : ServerState) :
    (clearAlerts st (some "camera") =
      ((st.cameraAlerts.length, "camera"),
       { st with cameraAlerts := [] },
       [⟨.all, "camera_alerts_cleared", .noneP⟩]) ∧
     (clearAlerts st (some "camera")).2.1.sosAlerts = st.sosAlerts) ∧
    (clearAlerts st (some "sos") =
      ((st.sosAlerts.length, "sos"),
       { st with sosAlerts := [] },
       [⟨.all, "sos_alerts_cleared", .noneP⟩]) ∧
     (clearAlerts st (some "sos")).2.1.cameraAlerts = st.cameraAlerts) ∧
    clearAlerts st (some "all") =
      ((st.cameraAlerts.length + st.sosAlerts.length, "all"),
       { st with cameraAlerts := [], sosAlerts := [] },
       [⟨.all, "all_alerts_cleared", .noneP⟩]) := by
  refine ⟨⟨?_, ?_⟩, ⟨?_, ?_⟩, ?_⟩ <;> simp [clearAlerts]

/-- C10: a supplied latitude or longitude that parses to the number 0 is
replaced by the fallback coordinate (`parseFloat(...) || 11.1085` treats
0 as falsy), so no stored alert of either kind can carry a zero
coordinate. -/
theorem zero_coord_fallback (a : CameraReq) (s : SosReq) (now newId : String) :
    (a.lat = some 0 → (buildCameraAlert a now newId).lat = 11.1085) ∧
    (a.lng = some 0 → (buildCameraAlert a now newId).lng = 77.3411) ∧
    (s.lat = some 0 → (buildSosAlert s now newId).lat = 11.1085) ∧
    (s.lng = some 0 → (buildSosAlert s now newId).lng = 77.3411) ∧
    (buildCameraAlert a now newId).lat ≠ 0 ∧
    (buildCameraAlert a now newId).lng ≠ 0 ∧
    (buildSosAlert s now newId).lat ≠ 0 ∧
    (buildSosAlert s now newId).lng ≠ 0 := by
  have hq : (11.1085 : ℚ) ≠ 0 := by norm_num
  have hq2 : (77.3411 : ℚ) ≠ 0 := by norm_num
  refine ⟨?_, ?_, ?_, ?_, ?_, ?_, ?_, ?_⟩
  · intro h; simp [buildCameraAlert, jsOr, h]
  · intro h; simp [buildCameraAlert, jsOr, h]
  · intro h; simp [buildSosAlert, jsOr, h]
  · intro h; simp [buildSosAlert, jsOr, h]
  all_goals
    simp only [buildCameraAlert, buildSosAlert, jsOr]
  · cases ha : a.lat with
    | none => simpa using hq
    | some q =>
      by_cases h0 : q = 0 <;> simp [h0, hq]
  · cases ha : a.lng with
    | none => simpa using hq2
    | some q =>
      by_cases h0 : q = 0 <;> simp [h0, hq2]
  · cases ha : s.lat with
    | none => simpa using hq
    | some q =>
      by_cases h0 : q = 0 <;> simp [h0, hq]
  · cases ha : s.lng with
    | none => simpa using hq2
    | some q =>
      by_cases h0 : q = 0 <;> simp [h0, hq2]

/-- Witness for C10: a request whose lat and lng are the parsed
number 0 yields the fallback coordinate. -/
theorem zero_coord_fallback_witness :
    (buildCameraAlert { exCameraReq with lat := some 0, lng := some 0 }
        "t0" "id0").lat = 11.1085 ∧
    (buildSosAlert { exSosReq with lat := some 0, lng := some 0 }
        "t0" "id0").lng = 77.3411 := by
  have h := zero_coord_fallback
    { exCameraReq with lat := some 0, lng := some 0 }
    { exSosReq with lat := some 0, lng := some 0 } "t0" "id0"
  exact ⟨h.1 rfl, h.2.2.2.1 rfl⟩

theorem appendCapped_head (l : List Alert) (a : Alert) :
    (appendCapped l a).head? = some a := by
  unfold appendCapped
  by_cases h : (a :: l).length > MAX_ALERTS
  · rw [if_pos h]
    cases l with
    | nil => simp [MAX_ALERTS] at h
    | cons b rest => simp
  · rw [if_neg h]
    rfl

/-- C4: with a valid key, the alert echoed in the camera response is the
one stored at the head of the camera collection, and the documented
defaults and coercions apply: severity defaults to MEDIUM and a supplied
(truthy) severity is upper-cased, absent/unparseable lat and lng become
the fallback coordinate (11.1085, 77.3411), an absent personCount
becomes 0, the status starts active; every SOS ingestion stores severity
CRITICAL regardless of input. -/
theorem ingestion_defaults (st : ServerState) (a : CameraReq) (s : SosReq)
    (now newId : String) :
    ((sendAlert st (some API_KEY) a now newId).1 =
        .ok (buildCameraAlert a now newId) ∧
     (sendAlert st (some API_KEY) a now newId).2.1.cameraAlerts.head? =
        some (buildCameraAlert a now newId)) ∧
    (a.severity = none → (buildCameraAlert a now newId).severity = "MEDIUM") ∧
    (∀ sv, a.severity = some sv → sv ≠ "" →
      (buildCameraAlert a now newId).severity = jsToUpper sv) ∧
    (a.lat = none → (buildCameraAlert a now newId).lat = 11.1085) ∧
    (a.lng = none → (buildCameraAlert a now newId).lng = 77.3411) ∧
    (a.personCount = none →
      (buildCameraAlert a now newId).personCount = some 0) ∧
    (buildCameraAlert a now newId).status = "active" ∧
    ((sendSosAlert st (some API_KEY) s now newId).1 =
        .ok (buildSosAlert s now newId) ∧
     (sendSosAlert st (some API_KEY) s now newId).2.1.sosAlerts.head? =
        some (buildSosAlert s now newId)) ∧
    (buildSosAlert s now newId).severity = "CRITICAL" ∧
    (s.lat = none → (buildSosAlert s now newId).lat = 11.1085) ∧
    (s.lng = none → (buildSosAlert s now newId).lng = 77.3411) ∧
    (buildSosAlert s now newId).status = "active" := by
  refine ⟨⟨?_, ?_⟩, ?_, ?_, ?_, ?_, ?_, rfl, ⟨?_, ?_⟩, rfl, ?_, ?_, rfl⟩
  · simp [sendAlert]
  · simp [sendAlert, appendCapped_head]
  · intro h
    simp only [buildCameraAlert, strOr, h]
    decide
  · intro sv hsv hne; simp [buildCameraAlert, strOr, hsv, hne]
  · intro h; simp [buildCameraAlert, jsOr, h]
  · intro h; simp [buildCameraAlert, jsOr, h]
  · intro h; simp [buildCameraAlert, intOr, h]
  · simp [sendSosAlert]
  · simp [sendSosAlert, appendCapped_head]
  · intro h; simp [buildSosAlert, jsOr, h]
  · intro h; simp [buildSosAlert, jsOr, h]

/-- Witness for C4 at two concrete requests: one with every field
absent and one with severity "high" supplied. -/
theorem ingestion_defaults_witness :
    (buildCameraAlert exCameraReq "t0" "id0").severity = "MEDIUM" ∧
    (buildCameraAlert exCameraReq "t0" "id0").lat = 11.1085 ∧
    (buildCameraAlert exCameraReq "t0" "id0").lng = 77.3411 ∧
    (buildCameraAlert exCameraReq "t0" "id0").personCount = some 0 ∧
    (buildCameraAlert exCameraReq "t0" "id0").status = "active" ∧
    (buildCameraAlert { exCameraReq with severity := some "high" }
        "t0" "id0").severity = "HIGH" ∧
    (buildSosAlert exSosReq "t0" "id0").severity = "CRITICAL" ∧
    (buildSosAlert exSosReq "t0" "id0").lat = 11.1085 := by
  have h1 := ingestion_defaults initialState exCameraReq exSosReq "t0" "id0"
  have h2 := ingestion_defaults initialState
    { exCameraReq with severity := some "high" } exSosReq "t0" "id0"
  refine ⟨h1.2.1 rfl, h1.2.2.2.1 rfl, h1.2.2.2.2.1 rfl, h1.2.2.2.2.2.1 rfl,
    h1.2.2.2.2.2.2.1, by rw [h2.2.2.1 "high" rfl (by decide)]; decide,
    h1.2.2.2.2.2.2.2.2.1, h1.2.2.2.2.2.2.2.2.2.1 rfl⟩

theorem resolveInList_eq_none (l : List Alert) (alertId now : String)
    (h : ∀ a ∈ l, a.id ≠ alertId) : resolveInList l alertId now = none := by
  induction l with
  | nil => rfl
  | cons al rest ih =>
    have hne : ¬ al.id = alertId := h al (List.mem_cons_self al rest)
    have hrest : resolveInList rest alertId now = none :=
      ih (fun a ha => h a (List.mem_cons_of_mem al ha))
    simp [resolveInList, hne, hrest]

theorem resolveInList_found (l : List Alert) (alertId now : String)
    (h : ∃ a ∈ l, a.id = alertId) :
    ∃ a2 l2, resolveInList l alertId now = some (a2, l2) ∧
      a2.id = alertId ∧ a2.status = "resolved" ∧ a2.respondedAt = some now ∧
      a2 ∈ l2 := by
  induction l with
  | nil => simp at h
  | cons al rest ih =>
    by_cases hid : al.id = alertId
    · exact ⟨{ al with status := "resolved", respondedAt := some now },
        { al with status := "resolved", respondedAt := some now } :: rest,
        by simp [resolveInList, hid], hid, rfl, rfl,
        List.mem_cons_self _ _⟩
    · have hex : ∃ a ∈ rest, a.id = alertId := by
        obtain ⟨a, ha, haid⟩ := h
        rcases List.mem_cons.mp ha with he | hm
        · exact absurd (he ▸ haid) hid
        · exact ⟨a, hm, haid⟩
      obtain ⟨a2, l2, heq, hids, hst, hra, hmem⟩ := ih hex
      exact ⟨a2, al :: l2, by simp [resolveInList, hid, heq], hids, hst, hra,
        List.mem_cons_of_mem al hmem⟩

/-- C3: resolving an id present in the selected collection (SOS when the
request says `sos`, camera otherwise) answers 200 with the alert now
carrying status resolved and a non-null resolution timestamp stamped
with the current time, broadcasts `alert_resolved`, leaves the other
collection unchanged, and keeps the id findable, so a repeated resolve
succeeds again and re-stamps; resolving an id absent from the selected
collection answers 404 with the whole state unchanged and nothing
emitted.  (The code stores the resolution timestamp in the field named
`respondedAt`; the spec calls that field `resolvedAt`.) -/
theorem resolve_alert_spec (st : ServerState) (alertId : String)
    (alertType : Option String) (now : String) :
    ((∃ a ∈ (if alertType = some "sos" then st.sosAlerts else st.cameraAlerts),
        a.id = alertId) →
      ∃ a2 st2,
        resolveAlert st alertId alertType now =
          (.ok a2, st2, [⟨.all, "alert_resolved", .resolvedP a2 alertType⟩]) ∧
        a2.id = alertId ∧ a2.status = "resolved" ∧ a2.respondedAt = some now ∧
        (∃ b ∈ (if alertType = some "sos" then st2.sosAlerts
                else st2.cameraAlerts), b.id = alertId) ∧
        (if alertType = some "sos" then st2.cameraAlerts = st.cameraAlerts
         else st2.sosAlerts = st.sosAlerts)) ∧
    ((∀ a ∈ (if alertType = some "sos" then st.sosAlerts else st.cameraAlerts),
        a.id ≠ alertId) →
      resolveAlert st alertId alertType now = (.notFound, st, [])) := by
  by_cases hty : alertType = some "sos"
  · constructor
    · intro h
      rw [if_pos hty] at h
      obtain ⟨a2, l2, heq, hid, hst, hra, hmem⟩ :=
        resolveInList_found st.sosAlerts alertId now h
      refine ⟨a2, { st with sosAlerts := l2 }, ?_, hid, hst, hra, ?_, ?_⟩
      · simp [resolveAlert, hty, heq]
      · rw [if_pos hty]
        exact ⟨a2, hmem, hid⟩
      · simp [hty]
    · intro h
      rw [if_pos hty] at h
      have hn := resolveInList_eq_none st.sosAlerts alertId now h
      simp [resolveAlert, hty, hn]
  · constructor
    · intro h
      rw [if_neg hty] at h
      obtain ⟨a2, l2, heq, hid, hst, hra, hmem⟩ :=
        resolveInList_found st.cameraAlerts alertId now h
      refine ⟨a2, { st with cameraAlerts := l2 }, ?_, hid, hst, hra, ?_, ?_⟩
      · simp [resolveAlert, hty, heq]
      · rw [if_neg hty]
        exact ⟨a2, hmem, hid⟩
      · simp [hty]
    · intro h
      rw [if_neg hty] at h
      have hn := resolveInList_eq_none st.cameraAlerts alertId now h
      simp [resolveAlert, hty, hn]

/-- A camera alert stored with id "A1". -/
def exAlert : Alert := buildCameraAlert exCameraReq "t0" "A1"

/-- A state holding one camera alert. -/
def exStateC3 : ServerState := { initialState with cameraAlerts := [exAlert] }

/-- Witness for C3: resolving the present id "A1" succeeds and stamps
the timestamp; resolving the absent id "missing" answers 404 with the
state unchanged. -/
theorem resolve_alert_spec_witness :
    (∃ a2 st2,
      resolveAlert exStateC3 "A1" none "t1" =
        (.ok a2, st2, [⟨.all, "alert_resolved", .resolvedP a2 none⟩]) ∧
      a2.status = "resolved" ∧ a2.respondedAt = some "t1") ∧
    resolveAlert exStateC3 "missing" none "t1" = (.notFound, exStateC3, []) := by
  have h1 := (resolve_alert_spec exStateC3 "A1" none "t1").1
    ⟨exAlert, by simp [exStateC3, initialState], rfl⟩
  have h2 := (resolve_alert_spec exStateC3 "missing" none "t1").2 (by decide)
  obtain ⟨a2, st2, heq, -, hst, hra, -, -⟩ := h1
  exact ⟨⟨a2, st2, heq, hst, hra⟩, h2⟩

/-- An officer entry with ordinary coordinates. -/
def exOfficer : Officer :=
  { name := "Officer", lat := some 1, lng := some 2, unit := "Unit-01"
    status := "available", loginTime := "t0" }

/-- A tracking session for connection "s1". -/
def exTrack : Tracking :=
  { alertId := "A1", alertLat := some 1, alertLng := some 2
    alertType := "camera", officerLat := some 1, officerLng := some 2
    startTime := "t0", status := "tracking" }

/-- A state where connection "s1" has both a presence and a tracking
session. -/
def exStateC5 : ServerState :=
  { cameraAlerts := [], sosAlerts := []
    activeTracking := [("s1", exTrack)]
    connectedOfficers := [("s1", exOfficer)] }

/-- C5 counterexample: the claim says a stop notice is broadcast on
disconnect, but the disconnect handler (src/server.js:134-138) only
deletes the two map entries and emits nothing — at a state where "s1"
has an active tracking session, disconnecting "s1" produces an empty
emission list, so no stop notice (and no event at all) is sent. -/
theorem disconnect_no_stop_notice :
    lookup exStateC5.activeTracking "s1" = some exTrack ∧
    lookup exStateC5.connectedOfficers "s1" = some exOfficer ∧
    (onDisconnect exStateC5 "s1").2 = [] := by
  refine ⟨rfl, rfl, rfl⟩

/-- C5 (amended): when a connection disconnects, both its presence entry
and its tracking session are removed — subsequent roster/tracking
queries no longer list that connection — and nothing at all is
broadcast: neither a stop notice nor a roster update is emitted. -/
theorem disconnect_removes_silently (st : ServerState) (sid : String) :
    lookup (onDisconnect st sid).1.connectedOfficers sid = none ∧
    lookup (onDisconnect st sid).1.activeTracking sid = none ∧
    ((trackingData (onDisconnect st sid).1).1.all
      (fun p => !(p.1 = sid))) = true ∧
    ((trackingData (onDisconnect st sid).1).2.all
      (fun p => !(p.1 = sid))) = true ∧
    (onDisconnect st sid).2 = [] := by
  refine ⟨lookup_mapDel_self _ _, lookup_mapDel_self _ _, ?_, ?_, rfl⟩
  · rw [List.all_eq_true]
    intro p hp
    simpa using mem_mapDel st.activeTracking sid p hp
  · rw [List.all_eq_true]
    intro p hp
    simpa using mem_mapDel st.connectedOfficers sid p hp

/-- An officer entry whose latitude is the number 0 (reachable via an
`update_location` event reporting lat "0"). -/
def exOfficer0 : Officer :=
  { name := "N", lat := some 0, lng := some 5, unit := "U"
    status := "available", loginTime := "t0" }

/-- A state where connection "s1" has a presence with latitude 0. -/
def exStateC7 : ServerState :=
  { cameraAlerts := [], sosAlerts := [], activeTracking := []
    connectedOfficers := [("s1", exOfficer0)] }

/-- C7 counterexample: the claim says the session's responder position
is initialized from the connection's current presence whenever one
exists, but `officer?.lat || 11.1085` (src/server.js:91) treats the
coordinate 0 as falsy — here a presence exists with latitude 0, yet the
created session starts at the fallback latitude 11.1085 (while the
truthy longitude 5 is taken from the presence). -/
theorem start_tracking_presence_ctrex :
    lookup exStateC7.connectedOfficers "s1" = some exOfficer0 ∧
    exOfficer0.lat = some 0 ∧
    lookup (startTracking exStateC7 "s1" "A1" (some 1) (some 2) none
        "t1").1.activeTracking "s1" =
      some { alertId := "A1", alertLat := some 1, alertLng := some 2
             alertType := "camera", officerLat := some 11.1085
             officerLng := some 5, startTime := "t1", status := "tracking" } ∧
    ¬ ((some (11.1085 : ℚ) : JSNum) = exOfficer0.lat) := by
  refine ⟨rfl, rfl, rfl, by norm_num [exOfficer0]⟩

/-- C7 (amended): every `start_tracking` event unconditionally creates a
session for the connection, overwriting any prior one and never
consulting the alert store (the alert collections are untouched and no
hypothesis relates the alert id to them, so the session may reference a
non-existent or resolved alert); each responder coordinate is
initialized from the presence's coordinate when a presence exists and
that coordinate is truthy (a number other than 0; NaN is falsy), and
from the fallback (11.1085, 77.3411) when the presence is absent or the
coordinate is 0 or NaN; a success acknowledgment goes to the
originating connection only and a `tracking_update` is broadcast to
all. -/
theorem start_tracking_spec (st : ServerState) (sid alertId : String)
    (aLat aLng : JSNum) (aType : Option String) (now : String) :
    ∃ t,
      lookup (startTracking st sid alertId aLat aLng aType
        now).1.activeTracking sid = some t ∧
      t.alertId = alertId ∧ t.alertLat = aLat ∧ t.alertLng = aLng ∧
      t.alertType = strOr aType "camera" ∧
      t.status = "tracking" ∧ t.startTime = now ∧
      (lookup st.connectedOfficers sid = none →
        t.officerLat = some 11.1085 ∧ t.officerLng = some 77.3411) ∧
      (∀ o, lookup st.connectedOfficers sid = some o →
        (∀ q, o.lat = some q → q ≠ 0 → t.officerLat = some q) ∧
        ((o.lat = none ∨ o.lat = some 0) → t.officerLat = some 11.1085) ∧
        (∀ q, o.lng = some q → q ≠ 0 → t.officerLng = some q) ∧
        ((o.lng = none ∨ o.lng = some 0) → t.officerLng = some 77.3411)) ∧
      (startTracking st sid alertId aLat aLng aType now).1.cameraAlerts =
        st.cameraAlerts ∧
      (startTracking st sid alertId aLat aLng aType now).1.sosAlerts =
        st.sosAlerts ∧
      (∀ sid2, sid2 ≠ sid →
        lookup (startTracking st sid alertId aLat aLng aType
          now).1.activeTracking sid2 = lookup st.activeTracking sid2) ∧
      (startTracking st sid alertId aLat aLng aType now).2 =
        [⟨.one sid, "tracking_started", .ackP true "Tracking activated"
           alertId⟩,
         ⟨.all, "tracking_update", .trackingP sid t⟩] := by
  refine ⟨{ alertId := alertId, alertLat := aLat, alertLng := aLng
            alertType := strOr aType "camera"
            officerLat := some (chainOr
              ((lookup st.connectedOfficers sid).map (fun o => o.lat)) 11.1085)
            officerLng := some (chainOr
              ((lookup st.connectedOfficers sid).map (fun o => o.lng)) 77.3411)
            startTime := now, status := "tracking" },
    lookup_mapSet_self _ _ _, rfl, rfl, rfl, rfl, rfl, rfl, ?_, ?_, rfl, rfl,
    ?_, rfl⟩
  · intro h
    simp [h, chainOr]
  · intro o ho
    refine ⟨?_, ?_, ?_, ?_⟩
    · intro q hq hq0
      simp [ho, chainOr, jsOr, hq, hq0]
    · intro hfalsy
      rcases hfalsy with h0 | h0 <;> simp [ho, chainOr, jsOr, h0]
    · intro q hq hq0
      simp [ho, chainOr, jsOr, hq, hq0]
    · intro hfalsy
      rcases hfalsy with h0 | h0 <;> simp [ho, chainOr, jsOr, h0]
  · intro sid2 hne
    exact lookup_mapSet_ne _ _ _ _ hne

/-- Witness for C7: with no presence the session starts at the fallback
position; with the latitude-0 presence of `exStateC7` the latitude falls
back while the truthy longitude 5 is taken from the presence. -/
theorem start_tracking_spec_witness :
    (∃ t, lookup (startTracking initialState "s9" "A9" none none none
        "t1").1.activeTracking "s9" = some t ∧
      t.officerLat = some 11.1085 ∧ t.officerLng = some 77.3411 ∧
      t.status = "tracking") ∧
    (∃ t, lookup (startTracking exStateC7 "s1" "A1" (some 1) (some 2) none
        "t1").1.activeTracking "s1" = some t ∧
      t.officerLat = some 11.1085 ∧ t.officerLng = some 5) := by
  obtain ⟨t, hl, -, -, -, -, hstat, -, hnone, -, -, -, -, -⟩ :=
    start_tracking_spec initialState "s9" "A9" none none none "t1"
  obtain ⟨hlat, hlng⟩ := hnone rfl
  obtain ⟨t2, hl2, -, -, -, -, -, -, -, hsome, -, -, -, -⟩ :=
    start_tracking_spec exStateC7 "s1" "A1" (some 1) (some 2) none "t1"
  obtain ⟨-, hlat0, hlng5, -⟩ := hsome exOfficer0 rfl
  exact ⟨⟨t, hl, hlat, hlng, hstat⟩,
    ⟨t2, hl2, hlat0 (Or.inr rfl), hlng5 5 rfl (by norm_num)⟩⟩

theorem updateLocation_no_presence (st : ServerState) (sid : String)
    (lat lng : JSNum) (h : lookup st.connectedOfficers sid = none) :
    updateLocation st sid lat lng = (st, []) := by
  unfold updateLocation
  rw [h]

theorem updateLocation_presence_no_track (st : ServerState) (sid : String)
    (o : Officer) (lat lng : JSNum)
    (ho : lookup st.connectedOfficers sid = some o)
    (ht : lookup st.activeTracking sid = none) :
    updateLocation st sid lat lng =
      ({ st with connectedOfficers :=
                   mapSet st.connectedOfficers sid
                     { o with lat := lat, lng := lng } },
       []) := by
  unfold updateLocation
  rw [ho, ht]

theorem updateLocation_presence_track (st : ServerState) (sid : String)
    (o : Officer) (t : Tracking) (lat lng : JSNum)
    (ho : lookup st.connectedOfficers sid = some o)
    (ht : lookup st.activeTracking sid = some t) :
    updateLocation st sid lat lng =
      ({ st with
          connectedOfficers :=
            mapSet st.connectedOfficers sid { o with lat := lat, lng := lng }
          activeTracking :=
            mapSet st.activeTracking sid
              { t with officerLat := lat, officerLng := lng } },
       [⟨.all, "tracking_update", .trackingP sid
          { t with officerLat := lat, officerLng := lng }⟩]) := by
  unfold updateLocation
  rw [ho, ht]

/-- C8: when the connection has a presence, a `start_tracking` event
followed immediately by `update_location` sets both the presence's and
the tracking session's responder-position fields to the newly reported
(parsed) coordinates and broadcasts the updated session to all
connections; an `update_location` for a connection with no presence
leaves the state unchanged and emits nothing. -/
theorem update_after_start_spec (st : ServerState) (sid alertId : String)
    (aLat aLng : JSNum) (aType : Option String) (now : String)
    (lLat lLng : JSNum) :
    ((∃ o, lookup st.connectedOfficers sid = some o) →
      (∃ o2, lookup (updateLocation
          (startTracking st sid alertId aLat aLng aType now).1
          sid lLat lLng).1.connectedOfficers sid = some o2 ∧
        o2.lat = lLat ∧ o2.lng = lLng) ∧
      (∃ t2, lookup (updateLocation
          (startTracking st sid alertId aLat aLng aType now).1
          sid lLat lLng).1.activeTracking sid = some t2 ∧
        t2.officerLat = lLat ∧ t2.officerLng = lLng ∧
        (updateLocation (startTracking st sid alertId aLat aLng aType now).1
          sid lLat lLng).2 =
          [⟨.all, "tracking_update", .trackingP sid t2⟩])) ∧
    (lookup st.connectedOfficers sid = none →
      updateLocation st sid lLat lLng = (st, [])) := by
  constructor
  · rintro ⟨o, ho⟩
    have ho1 : lookup (startTracking st sid alertId aLat aLng aType
        now).1.connectedOfficers sid = some o := ho
    have ht1 : lookup (startTracking st sid alertId aLat aLng aType
        now).1.activeTracking sid = some
        { alertId := alertId, alertLat := aLat, alertLng := aLng
          alertType := strOr aType "camera"
          officerLat := some (chainOr
            ((lookup st.connectedOfficers sid).map (fun o2 => o2.lat)) 11.1085)
          officerLng := some (chainOr
            ((lookup st.connectedOfficers sid).map (fun o2 => o2.lng)) 77.3411)
          startTime := now, status := "tracking" } :=
      lookup_mapSet_self _ _ _
    rw [updateLocation_presence_track _ _ _ _ lLat lLng ho1 ht1]
    exact ⟨⟨{ o with lat := lLat, lng := lLng },
        lookup_mapSet_self _ _ _, rfl, rfl⟩,
      ⟨_, lookup_mapSet_self _ _ _, rfl, rfl, rfl⟩⟩
  · intro h
    exact updateLocation_no_presence st sid lLat lLng h

/-- Witness for C8 at the one-officer state `exStateC5` (new parsed
coordinates 3 and 4) and, for the no-presence branch, at the empty
state. -/
theorem update_after_start_spec_witness :
    (∃ o2, lookup (updateLocation
        (startTracking exStateC5 "s1" "A1" (some 1) (some 2) none "t1").1
        "s1" (some 3) (some 4)).1.connectedOfficers "s1" = some o2 ∧
      o2.lat = some 3 ∧ o2.lng = some 4) ∧
    (∃ t2, lookup (updateLocation
        (startTracking exStateC5 "s1" "A1" (some 1) (some 2) none "t1").1
        "s1" (some 3) (some 4)).1.activeTracking "s1" = some t2 ∧
      t2.officerLat = some 3 ∧ t2.officerLng = some 4) ∧
    updateLocation initialState "s9" (some 3) (some 4) =
      (initialState, []) := by
  obtain ⟨hpres, htrack⟩ :=
    (update_after_start_spec exStateC5 "s1" "A1" (some 1) (some 2) none "t1"
      (some 3) (some 4)).1 ⟨exOfficer, rfl⟩
  obtain ⟨t2, hl2, hlat2, hlng2, -⟩ := htrack
  exact ⟨hpres, ⟨t2, hl2, hlat2, hlng2⟩,
    (update_after_start_spec initialState "s9" "A9" none none none "t1"
      (some 3) (some 4)).2 rfl⟩

/-- C9 counterexample: the claim says an `update_location` whose lat/lng
do not parse as numbers still leaves the presence and tracking session
holding valid coordinate values, but the handler (src/server.js:112-118)
stores the raw `parseFloat` results without any defaulting — at a state
where "s1" has presence coordinates (1, 2) and an active session, an
unparseable report (`parseFloat` = NaN, modelled `none`) overwrites both
the presence's and the session's responder coordinates with NaN, which
is not a valid coordinate value. -/
theorem update_location_nan_ctrex :
    lookup exStateC5.connectedOfficers "s1" = some exOfficer ∧
    exOfficer.lat = some 1 ∧
    lookup (updateLocation exStateC5 "s1" none none).1.connectedOfficers
      "s1" = some { exOfficer with lat := none, lng := none } ∧
    lookup (updateLocation exStateC5 "s1" none none).1.activeTracking
      "s1" = some { exTrack with officerLat := none, officerLng := none } := by
  refine ⟨rfl, rfl, rfl, rfl⟩

/-- C9 (amended): push-channel events are never rejected and carry no
validation error; `officer_login` coerces missing fields to the
documented defaults (name "Officer", position (11.1085, 77.3411), unit
"Unit-01") and always upserts; `update_location`, however, performs no
coercion: the raw `parseFloat` results — NaN (`none`) included when
lat/lng do not parse — are stored verbatim in the presence and, when a
session exists, in the tracking session's responder-position fields. -/
theorem lenient_events_spec (st : ServerState) (sid : String)
    (name : Option String) (lat lng : JSNum) (unitF : Option String)
    (now : String) (lLat lLng : JSNum) :
    (∃ o, lookup (officerLogin st sid name lat lng unitF
        now).1.connectedOfficers sid = some o ∧
      (name = none → o.name = "Officer") ∧
      (lat = none → o.lat = some 11.1085) ∧
      (lng = none → o.lng = some 77.3411) ∧
      (unitF = none → o.unit = "Unit-01") ∧
      o.status = "available") ∧
    (∀ o, lookup st.connectedOfficers sid = some o →
      ∃ o2, lookup (updateLocation st sid lLat
          lLng).1.connectedOfficers sid = some o2 ∧
        o2.lat = lLat ∧ o2.lng = lLng) ∧
    (∀ t, lookup st.activeTracking sid = some t →
      ∀ o, lookup st.connectedOfficers sid = some o →
        ∃ t2, lookup (updateLocation st sid lLat
            lLng).1.activeTracking sid = some t2 ∧
          t2.officerLat = lLat ∧ t2.officerLng = lLng) := by
  refine ⟨?_, ?_, ?_⟩
  · refine ⟨_, lookup_mapSet_self _ _ _, ?_, ?_, ?_, ?_, rfl⟩
    · intro h; simp [strOr, h]
    · intro h; simp [jsOr, h]
    · intro h; simp [jsOr, h]
    · intro h; simp [strOr, h]
  · intro o ho
    cases htr : lookup st.activeTracking sid with
    | none =>
      rw [updateLocation_presence_no_track _ _ _ lLat lLng ho htr]
      exact ⟨_, lookup_mapSet_self _ _ _, rfl, rfl⟩
    | some t =>
      rw [updateLocation_presence_track _ _ _ _ lLat lLng ho htr]
      exact ⟨_, lookup_mapSet_self _ _ _, rfl, rfl⟩
  · intro t ht o ho
    rw [updateLocation_presence_track _ _ _ _ lLat lLng ho ht]
    exact ⟨_, lookup_mapSet_self _ _ _, rfl, rfl⟩

/-- Witness for C9: an all-defaults login at `exStateC5`, and an
unparseable `update_location` (both coordinates NaN) at the same state,
which stores NaN in the presence and in the session. -/
theorem lenient_events_spec_witness :
    (∃ o, lookup (officerLogin exStateC5 "s1" none none none none
        "t0").1.connectedOfficers "s1" = some o ∧
      o.name = "Officer" ∧ o.lat = some 11.1085 ∧ o.lng = some 77.3411 ∧
      o.unit = "Unit-01" ∧ o.status = "available") ∧
    (∃ o2, lookup (updateLocation exStateC5 "s1" none
        none).1.connectedOfficers "s1" = some o2 ∧
      o2.lat = none ∧ o2.lng = none) ∧
    (∃ t2, lookup (updateLocation exStateC5 "s1" none
        none).1.activeTracking "s1" = some t2 ∧
      t2.officerLat = none ∧ t2.officerLng = none) := by
  obtain ⟨h1, h2, h3⟩ :=
    lenient_events_spec exStateC5 "s1" none none none none "t0" none none
  obtain ⟨o, ho, hname, hlat, hlng, hunit, hstat⟩ := h1
  exact ⟨⟨o, ho, hname rfl, hlat rfl, hlng rfl, hunit rfl, hstat⟩,
    h2 exOfficer rfl, h3 exTrack rfl exOfficer rfl⟩
